import Mathlib

/-!
Shallow embedding of the product-search-and-answer pipeline.

Sources embedded here:
- `chainlit_app.py`: the `AgentState` record, the `search_products` node
  (lines 38-69), the `generate_answer` node (lines 73-128), and the two-node
  LangGraph pipeline `search -> generate` started from the initial state built
  in the message handler (lines 188-196).
- `main.py`: the `/search` endpoint `search_products` (lines 84-118).
- `models.py`: the `SearchRequest` validation (query length 1..500, size 1..100
  with default 10).

External effects are passed in as explicit outcome values: the HTTP call made
by the retrieval node is a `SearchOutcome`, and the LLM call made by the
generation node is a function from the prompt to an `LLMOutcome`.  Relevance
scores are embedded as integer numbers of hundredths: the Python code renders
each score with the format `:.2f`, which for such values prints the sign, the
integer part, a dot, and exactly two digits.
-/

namespace ProductSearch

/-- One ranked search hit (`models.py`, class `Product`): id, title,
description and relevance score.  The score is held in hundredths. -/
structure Product where
  id : Int
  title : String
  description : String
  score : Int
deriving DecidableEq, Repr

/-- The LangGraph state record (`chainlit_app.py`, class `AgentState`):
query, search results, answer, and optional error string. -/
structure AgentState where
  query : String
  search_results : List Product
  answer : String
  error : Option String
deriving DecidableEq, Repr

/-- The Python exception class hit inside the retrieval node.  The handler
`except Exception as e` catches them all uniformly, so the kind is carried
here only to let theorems speak about which failure occurred. -/
inductive ExcKind
  | timeoutErr
  | connectionErr
  | malformedBody
  | otherErr
deriving DecidableEq, Repr

/-- Outcome of the HTTP POST to the `/search` API made by the retrieval node
(`chainlit_app.py` lines 50-55): a 200 response whose body parsed and held
both `results` and `took_ms`, a non-200 status code, or a raised exception
(timeout, connection failure, malformed body, or any other). -/
inductive SearchOutcome
  | success (results : List Product) (took_ms : Nat)
  | httpStatus (code : Nat)
  | exn (kind : ExcKind) (msg : String)
deriving DecidableEq, Repr

/-- The request timeout passed to the HTTP client by the retrieval node
(`chainlit_app.py` line 54, `timeout=10.0`), in seconds. -/
def requestTimeoutSeconds : Nat := 10

/-- Python truthiness of `state.get("error")` (`chainlit_app.py` line 77):
`None` and the empty string are falsy, every other string is truthy. -/
def isTruthy : Option String → Bool
  | none => false
  | some s => !(s == "")

/-- Node 1 of the graph, `search_products` (`chainlit_app.py` lines 38-69).
On a 200 response it stores the parsed results; on a non-200 status it sets
the error string `Search failed with status N`; on any exception it sets
`Search error: <message>`.  The node itself never raises. -/
def search_products (o : SearchOutcome) (state : AgentState) : AgentState :=
  match o with
  | .success results _took_ms => { state with search_results := results }
  | .httpStatus code =>
      { state with error := some ("Search failed with status " ++ toString code) }
  | .exn _kind msg =>
      { state with error := some ("Search error: " ++ msg) }

/-- Whether a `SearchOutcome` is a failure (non-200 status or exception). -/
def isFailure : SearchOutcome → Bool
  | .success _ _ => false
  | .httpStatus _ => true
  | .exn _ _ => true

/-- Outcome of the try-block around `get_llm()` and `llm.invoke(prompt)`
(`chainlit_app.py` lines 118-126): the response content, or the message of
whatever exception was raised (missing `GROQ_API_KEY`, backend unreachable,
backend error). -/
inductive LLMOutcome
  | success (content : String)
  | failure (msg : String)
deriving DecidableEq, Repr

/-- Decimal digit character. -/
def digitChar (n : Nat) : Char := Char.ofNat (48 + n % 10)

/-- Two-digit zero-padded decimal rendering of `n < 100`. -/
def twoDigits (n : Nat) : String := String.mk [digitChar (n / 10), digitChar n]

/-- Rendering of a score held in hundredths by the Python format `:.2f`:
sign, integer part, dot, exactly two fractional digits. -/
def formatScore2 (score : Int) : String :=
  (if score < 0 then "-" else "") ++ toString (score.natAbs / 100) ++ "."
    ++ twoDigits (score.natAbs % 100)

/-- One record of the context block (`chainlit_app.py` lines 94-97): the
f-string with 1-based position, title, description and 2-decimal score. -/
def renderRecord (pos : Nat) (r : Product) : String :=
  "Product " ++ toString pos ++ ":\n"
    ++ "Title: " ++ r.title ++ "\n"
    ++ "Description: " ++ r.description ++ "\n"
    ++ "Relevance Score: " ++ formatScore2 r.score

/-- The context formatter (`chainlit_app.py` lines 93-99): the records of the
enumerated results joined with a blank-line separator. -/
def formatContext (search_results : List Product) : String :=
  String.intercalate "\n\n"
    (search_results.enum.map (fun p => renderRecord (p.1 + 1) p.2))

/-- The prompt built for the LLM (`chainlit_app.py` lines 102-116). -/
def mkPrompt (context query : String) : String :=
  "You are a helpful product search assistant. Based on the search results below, answer the user\x27s question accurately.\n\nSearch Results:\n"
    ++ context
    ++ "\n\nUser Question: " ++ query
    ++ "\n\nInstructions:\n- Provide a concise answer\n- Reference specific products from the search results\n- If multiple products match, compare them briefly\n- Be conversational\n- If no products perfectly match, suggest the closest alternatives\n\nAnswer:"

/-- Body of the generation node after the error guard (`chainlit_app.py`
lines 82-128): with no results it writes the fixed no-matches answer without
touching the LLM; otherwise it formats the context, builds the prompt and
enters the LLM try-block.  The boolean records whether that LLM branch was
entered. -/
def generateBody (llm : String → LLMOutcome) (state : AgentState) :
    AgentState × Bool :=
  let search_results := state.search_results
  let query := state.query
  if search_results.isEmpty then
    ({ state with answer :=
        "I couldn\x27t find any products matching your query. Could you try rephrasing?" },
      false)
  else
    let context := formatContext search_results
    let prompt := mkPrompt context query
    match llm prompt with
    | .success content => ({ state with answer := content }, true)
    | .failure msg =>
        ({ state with answer := "Sorry, I couldn\x27t generate a response: " ++ msg },
          true)

/-- Node 2 of the graph, `generate_answer` (`chainlit_app.py` lines 73-128).
A truthy error short-circuits to the apologetic error answer (a falsy error,
None or the empty string, falls through, mirroring the Python `if` on line
77); otherwise `generateBody` runs.  The boolean records whether the LLM
branch was entered. -/
def generate_answer (llm : String → LLMOutcome) (state : AgentState) :
    AgentState × Bool :=
  match state.error with
  | some e =>
      if e = "" then generateBody llm state
      else ({ state with answer := "Sorry, I encountered an error: " ++ e }, false)
  | none => generateBody llm state

/-- The initial state built by the message handler (`chainlit_app.py` lines
188-193). -/
def initialState (query : String) : AgentState :=
  { query := query, search_results := [], answer := "", error := none }

/-- One pipeline invocation: the compiled graph `search -> generate -> END`
(`chainlit_app.py` lines 131-146) applied to the initial state. -/
def run (o : SearchOutcome) (llm : String → LLMOutcome) (query : String) :
    AgentState × Bool :=
  generate_answer llm (search_products o (initialState query))

/-- A validated search request (`models.py`, class `SearchRequest`). -/
structure SearchRequest where
  query : String
  size : Int
deriving DecidableEq, Repr

/-- The `/search` response model (`models.py`, class `SearchResponse`). -/
structure SearchResponse where
  query : String
  total_hits : Nat
  results : List Product
  took_ms : Nat
deriving DecidableEq, Repr

/-- Pydantic validation of `SearchRequest` (`models.py` lines 8-23): query
length 1..500 characters, size 1..100 when given, size 10 when omitted. -/
def validateSearchRequest (query : String) (size : Option Int) :
    Option SearchRequest :=
  if query.length < 1 || query.length > 500 then none
  else
    match size with
    | none => some { query := query, size := 10 }
    | some n =>
        if n < 1 || n > 100 then none
        else some { query := query, size := n }

/-- The `/search` endpoint handler body (`main.py` lines 84-118): 503 when
the index is unreachable or the index is missing, otherwise the products
list is left empty and a response with zero hits is returned. -/
def endpoint_search_products (connected indexExists : Bool)
    (req : SearchRequest) : Except Nat SearchResponse :=
  if !connected then .error 503
  else if !indexExists then .error 503
  else
    .ok { query := req.query, total_hits := 0, results := [], took_ms := 0 }

/-- The framework layer around the endpoint: the request body is validated
against `SearchRequest` before the handler runs; a validation failure is a
422 rejection and the handler body is never entered. -/
def handle_search (connected indexExists : Bool) (query : String)
    (size : Option Int) : Except Nat SearchResponse :=
  match validateSearchRequest query size with
  | none => .error 422
  | some req => endpoint_search_products connected indexExists req

/-- Specification-side record shape (spec 4.2): 1-based position, title,
description, score to two decimals. -/
def specRecordText (pos : Nat) (r : Product) : String :=
  "Product " ++ toString pos ++ ":\n"
    ++ "Title: " ++ r.title ++ "\n"
    ++ "Description: " ++ r.description ++ "\n"
    ++ "Relevance Score: " ++ formatScore2 r.score

/-- Specification-side context formatter, written from the words of spec 4.2
for refinement comparison with `formatContext`: records at increasing 1-based
positions, joined by a blank-line separator in retrieval order, empty input
giving the empty block. -/
def contextBlockSpec : Nat → List Product → String
  | _, [] => ""
  | pos, [r] => specRecordText pos r
  | pos, r :: rs => specRecordText pos r ++ "\n\n" ++ contextBlockSpec (pos + 1) rs

/-- A concrete product used by witness instances. -/
def sampleProduct : Product :=
  { id := 1, title := "Sony WH-1000XM5", description := "Wireless headphones",
    score := 1520 }

/-! Helper lemmas shared by several claim proofs. -/

/-- A string of length zero is the empty string. -/
theorem eq_empty_of_length_eq_zero (a : String) (h : a.length = 0) : a = "" := by
  cases a with
  | mk data =>
    cases data with
    | nil => rfl
    | cons c cs => simp at h

/-- Appending to a non-empty string keeps it non-empty. -/
theorem append_ne_empty_left (a b : String) (h : a ≠ "") : a ++ b ≠ "" := by
  intro hab
  apply h
  apply eq_empty_of_length_eq_zero
  have hlen := congrArg String.length hab
  rw [String.length_append, String.length_empty] at hlen
  omega

/-- A string obtained by appending to a non-empty prefix is truthy. -/
theorem isTruthy_append (a b : String) (h : a ≠ "") :
    isTruthy (some (a ++ b)) = true := by
  simp [isTruthy]
  exact append_ne_empty_left a b h

/-- Unfolding lemma for the accumulator of `String.intercalate`. -/
theorem intercalate_go_append (s : String) (l : List String) :
    ∀ pre acc, String.intercalate.go (pre ++ acc) s l =
      pre ++ String.intercalate.go acc s l := by
  induction l with
  | nil =>
    intro pre acc
    rfl
  | cons x xs ih =>
    intro pre acc
    show String.intercalate.go (pre ++ acc ++ s ++ x) s xs =
      pre ++ String.intercalate.go (acc ++ s ++ x) s xs
    rw [String.append_assoc (pre ++ acc) s x,
      String.append_assoc pre acc (s ++ x), String.append_assoc acc s x]
    exact ih pre (acc ++ (s ++ x))

/-- Peeling one element off a two-or-more element intercalation. -/
theorem intercalate_cons_cons (s a b : String) (l : List String) :
    String.intercalate s (a :: b :: l) =
      a ++ s ++ String.intercalate s (b :: l) := by
  show String.intercalate.go (a ++ s ++ b) s l =
    (a ++ s) ++ String.intercalate.go b s l
  exact intercalate_go_append s l (a ++ s) b

/-- The enumerated rendering used by `formatContext` agrees with the
positional recursion of `contextBlockSpec`, at every starting index. -/
theorem formatContext_enumFrom (rs : List Product) : ∀ k : Nat,
    String.intercalate "\n\n"
      ((List.enumFrom k rs).map (fun p => renderRecord (p.1 + 1) p.2)) =
    contextBlockSpec (k + 1) rs := by
  induction rs with
  | nil =>
    intro k
    rfl
  | cons r rs ih =>
    intro k
    cases rs with
    | nil => rfl
    | cons r2 rs2 =>
      have ih2 := ih (k + 1)
      rw [List.enumFrom_cons, List.map_cons] at ih2
      rw [List.enumFrom_cons, List.map_cons, List.enumFrom_cons, List.map_cons,
        intercalate_cons_cons, ih2]
      simp [contextBlockSpec, renderRecord, specRecordText]

/-! Claim theorems. -/

/-- C2: the spec property says that for a reachable index with at least one
matching document the retrieval set is non-empty and score-sorted; the
endpoint body of `main.py` never queries the index and returns the empty
results list with zero hits unconditionally, so every pipeline invocation
receives an empty retrieval set.  This theorem evaluates the code on that
failing configuration. -/
theorem c2_endpoint_always_empty (req : SearchRequest)
    (llm : String → LLMOutcome) (q : String) (tm : Nat) :
    endpoint_search_products true true req =
      Except.ok { query := req.query, total_hits := 0, results := [], took_ms := 0 } ∧
    (run (SearchOutcome.success [] tm) llm q).1.search_results = [] :=
  ⟨rfl, rfl⟩

/-- C4: when retrieval succeeds with zero matching documents, the final
answer is the fixed no-matches literal and the LLM branch is never
entered. -/
theorem c4_no_matches (tm : Nat) (llm : String → LLMOutcome) (q : String) :
    (run (SearchOutcome.success [] tm) llm q).1.answer =
      "I couldn\x27t find any products matching your query. Could you try rephrasing?" ∧
    (run (SearchOutcome.success [] tm) llm q).2 = false :=
  ⟨rfl, rfl⟩

/-- C8: context formatting is deterministic: two formatting runs over equal
retrieval sets produce byte-identical output. -/
theorem c8_deterministic (rs1 rs2 : List Product) (h : rs1 = rs2) :
    formatContext rs1 = formatContext rs2 := by
  rw [h]

/-- Witness for C8 at a concrete retrieval set. -/
theorem c8_deterministic_witness :
    formatContext [sampleProduct] = formatContext [sampleProduct] :=
  c8_deterministic [sampleProduct] [sampleProduct] rfl

/-- C10: the generation node writes only the answer field, leaving query,
search results and error unchanged; the retrieval node writes only the
search results or the error, leaving query and answer unchanged. -/
theorem c10_frame (o : SearchOutcome) (llm : String → LLMOutcome)
    (s : AgentState) :
    (generate_answer llm s).1.query = s.query ∧
    (generate_answer llm s).1.search_results = s.search_results ∧
    (generate_answer llm s).1.error = s.error ∧
    (search_products o s).query = s.query ∧
    (search_products o s).answer = s.answer := by
  cases o <;> rcases s with ⟨q, res, ans, err⟩ <;> rcases err with _ | e <;>
    simp only [generate_answer, generateBody, search_products] <;>
    (repeat' split) <;> simp_all

/-- C1: the LLM branch of the generation node is entered if and only if the
retrieval node finished without setting an error and stored a non-empty
results list; otherwise the generation node synthesizes the answer itself. -/
theorem c1_backend_iff (o : SearchOutcome) (llm : String → LLMOutcome)
    (q : String) :
    (run o llm q).2 = true ↔
      ((search_products o (initialState q)).error = none ∧
       (search_products o (initialState q)).search_results ≠ []) := by
  cases o with
  | success res tm =>
    by_cases hres : res = []
    · subst hres
      simp [run, search_products, initialState, generate_answer, generateBody]
    · cases hl : llm (mkPrompt (formatContext res) q) <;>
        simp [run, search_products, initialState, generate_answer, generateBody,
          hres, hl]
  | httpStatus code =>
    have hne : ("Search failed with status " ++ toString code) ≠ "" :=
      append_ne_empty_left _ _ (by decide)
    simp [run, search_products, initialState, generate_answer, hne]
  | exn kind msg =>
    have hne : ("Search error: " ++ msg) ≠ "" :=
      append_ne_empty_left _ _ (by decide)
    simp [run, search_products, initialState, generate_answer, hne]

/-- Witness for C1 at a successful one-candidate retrieval. -/
theorem c1_backend_iff_witness :
    (run (SearchOutcome.success [sampleProduct] 3)
        (fun _ => LLMOutcome.success "ok") "q").2 = true :=
  (c1_backend_iff (SearchOutcome.success [sampleProduct] 3)
      (fun _ => LLMOutcome.success "ok") "q").mpr ⟨rfl, by decide⟩

/-- C3: when retrieval succeeded with candidates and the LLM call fails, the
pipeline still completes: the answer is the degraded-failure string carrying
the failure message, it is non-empty, and the retrieval set is preserved. -/
theorem c3_generation_failure (res : List Product) (tm : Nat)
    (q msg : String) (llm : String → LLMOutcome) (hne : res ≠ [])
    (hfail : llm (mkPrompt (formatContext res) q) = LLMOutcome.failure msg) :
    (run (SearchOutcome.success res tm) llm q).1.answer =
      "Sorry, I couldn\x27t generate a response: " ++ msg ∧
    (run (SearchOutcome.success res tm) llm q).1.answer ≠ "" ∧
    (run (SearchOutcome.success res tm) llm q).1.search_results = res := by
  have h1 : (run (SearchOutcome.success res tm) llm q).1.answer =
      "Sorry, I couldn\x27t generate a response: " ++ msg := by
    simp [run, search_products, initialState, generate_answer, generateBody,
      hne, hfail]
  refine ⟨h1, ?_, ?_⟩
  · rw [h1]
    exact append_ne_empty_left _ _ (by decide)
  · simp [run, search_products, initialState, generate_answer, generateBody,
      hne, hfail]

/-- Witness for C3 at a concrete failing backend. -/
theorem c3_generation_failure_witness :
    (run (SearchOutcome.success [sampleProduct] 0)
        (fun _ => LLMOutcome.failure "backend down") "q").1.answer =
      "Sorry, I couldn\x27t generate a response: " ++ "backend down" ∧
    (run (SearchOutcome.success [sampleProduct] 0)
        (fun _ => LLMOutcome.failure "backend down") "q").1.answer ≠ "" ∧
    (run (SearchOutcome.success [sampleProduct] 0)
        (fun _ => LLMOutcome.failure "backend down") "q").1.search_results =
      [sampleProduct] :=
  c3_generation_failure [sampleProduct] 0 "q" "backend down"
    (fun _ => LLMOutcome.failure "backend down") (by decide) rfl

/-- C5: when the retrieval call fails (non-success status or exception), the
error field is set to a non-empty string, the answer embeds that error, the
LLM branch is never entered, and the invocation returns a full state. -/
theorem c5_retrieval_error (o : SearchOutcome) (llm : String → LLMOutcome)
    (q : String) (h : isFailure o = true) :
    ∃ e, (run o llm q).1.error = some e ∧ e ≠ "" ∧
      (run o llm q).1.answer = "Sorry, I encountered an error: " ++ e ∧
      (run o llm q).2 = false := by
  cases o with
  | success res tm => simp [isFailure] at h
  | httpStatus code =>
    have hne : ("Search failed with status " ++ toString code) ≠ "" :=
      append_ne_empty_left _ _ (by decide)
    refine ⟨"Search failed with status " ++ toString code, ?_, hne, ?_, ?_⟩ <;>
      simp [run, search_products, initialState, generate_answer, hne]
  | exn kind msg =>
    have hne : ("Search error: " ++ msg) ≠ "" :=
      append_ne_empty_left _ _ (by decide)
    refine ⟨"Search error: " ++ msg, ?_, hne, ?_, ?_⟩ <;>
      simp [run, search_products, initialState, generate_answer, hne]

/-- Witness for C5 at a 503 response. -/
theorem c5_retrieval_error_witness :
    ∃ e, (run (SearchOutcome.httpStatus 503)
        (fun _ => LLMOutcome.success "ok") "q").1.error = some e ∧ e ≠ "" ∧
      (run (SearchOutcome.httpStatus 503)
        (fun _ => LLMOutcome.success "ok") "q").1.answer =
        "Sorry, I encountered an error: " ++ e ∧
      (run (SearchOutcome.httpStatus 503)
        (fun _ => LLMOutcome.success "ok") "q").2 = false :=
  c5_retrieval_error (SearchOutcome.httpStatus 503)
    (fun _ => LLMOutcome.success "ok") "q" rfl

/-- C6 counterexample: the claim says every failure is classified into one of
the structured kinds Timeout, Unavailable or Malformed recorded on the
pipeline state; the code maps a timeout exception and a malformed-body
exception carrying the same message to identical states, so the state does
not record a structured kind that separates them. -/
theorem c6_counterexample :
    search_products
        (SearchOutcome.exn ExcKind.timeoutErr "request timed out")
        (initialState "q") =
      search_products
        (SearchOutcome.exn ExcKind.malformedBody "request timed out")
        (initialState "q") ∧
    ExcKind.timeoutErr ≠ ExcKind.malformedBody :=
  ⟨rfl, by decide⟩

/-- C6 amended: the retrieval call carries a 10-second timeout; every
failure is caught and recorded on the state as a non-empty error string,
namely `Search failed with status N` for a non-success status and
`Search error: message` for any exception (timeout, connection failure,
malformed body); the node never raises to its caller.  The recorded error
is a plain string and does not itself separate the failure kinds. -/
theorem c6_amended_classification (o : SearchOutcome) (s : AgentState)
    (h : isFailure o = true) :
    requestTimeoutSeconds = 10 ∧
    ∃ e, (search_products o s).error = some e ∧ e ≠ "" ∧
      (∀ c, o = SearchOutcome.httpStatus c →
        e = "Search failed with status " ++ toString c) ∧
      (∀ k m, o = SearchOutcome.exn k m → e = "Search error: " ++ m) := by
  refine ⟨rfl, ?_⟩
  cases o with
  | success res tm => simp [isFailure] at h
  | httpStatus code =>
    refine ⟨_, rfl, append_ne_empty_left _ _ (by decide), ?_, ?_⟩
    · intro c hc
      injection hc with h1
      rw [h1]
    · intro k m hm
      exact SearchOutcome.noConfusion hm
  | exn kind msg =>
    refine ⟨_, rfl, append_ne_empty_left _ _ (by decide), ?_, ?_⟩
    · intro c hc
      exact SearchOutcome.noConfusion hc
    · intro k m hm
      injection hm with h1 h2
      rw [h2]

/-- Witness for the amended C6 at a concrete timeout exception. -/
theorem c6_amended_classification_witness :
    requestTimeoutSeconds = 10 ∧
    ∃ e, (search_products
        (SearchOutcome.exn ExcKind.timeoutErr "timed out")
        (initialState "q")).error = some e ∧ e ≠ "" ∧
      (∀ c, SearchOutcome.exn ExcKind.timeoutErr "timed out" =
          SearchOutcome.httpStatus c →
        e = "Search failed with status " ++ toString c) ∧
      (∀ k m, SearchOutcome.exn ExcKind.timeoutErr "timed out" =
          SearchOutcome.exn k m → e = "Search error: " ++ m) :=
  c6_amended_classification
    (SearchOutcome.exn ExcKind.timeoutErr "timed out") (initialState "q") rfl

/-- C7: the context formatter renders each candidate as the fixed-shape
record at its 1-based position with the score to exactly two decimal places,
joins the records with a blank-line separator in retrieval order, and yields
the empty string on the empty retrieval set; stated as a refinement against
the specification-side formatter `contextBlockSpec`. -/
theorem c7_context_formatter (rs : List Product) :
    formatContext rs = contextBlockSpec 1 rs ∧
    formatContext [] = "" ∧
    (∀ n : Int, ∃ ip fp, formatScore2 n = ip ++ "." ++ fp ∧ fp.length = 2) := by
  refine ⟨?_, rfl, fun n => ⟨_, _, rfl, rfl⟩⟩
  have h := formatContext_enumFrom rs 0
  simpa [formatContext, List.enum_eq_enumFrom] using h

/-- C9: request validation rejects a query shorter than 1 or longer than 500
characters and a size outside 1..100 before the endpoint body runs, and an
omitted size defaults to 10. -/
theorem c9_request_validation (q : String) (sz : Option Int) (c i : Bool) :
    (validateSearchRequest q sz = none ↔
      (q.length < 1 ∨ q.length > 500 ∨
        ∃ n, sz = some n ∧ (n < 1 ∨ n > 100))) ∧
    (validateSearchRequest q sz = none →
      handle_search c i q sz = Except.error 422) ∧
    (∀ req, validateSearchRequest q none = some req → req.size = 10) := by
  refine ⟨?_, ?_, ?_⟩
  · unfold validateSearchRequest
    cases sz with
    | none =>
      split <;> simp_all
    | some n =>
      split <;> simp_all <;> omega
  · intro h
    unfold handle_search
    rw [h]
  · intro req h
    unfold validateSearchRequest at h
    split at h
    · exact Option.noConfusion h
    · simp only [Option.some.injEq] at h
      rw [← h]

/-- Witness for C9: the empty query is rejected before the endpoint runs. -/
theorem c9_request_validation_witness :
    handle_search true true "" none = Except.error 422 :=
  (c9_request_validation "" none true true).2.1 rfl

end ProductSearch
